import Mathlib

set_option autoImplicit false

/-!
Shallow embedding of the translation core and JSON import of `app_todo.py`
(class `AITodoApp`), together with proofs of the specification claims.

Conventions of the embedding:
* Python strings are Lean `String`s; `str.strip()` is modelled by `pyStrip`
  over the ASCII whitespace characters Python strips.
* `str.lower()` is modelled characterwise by `Char.toLower` (the inputs that
  matter here are ASCII).
* Python dicts whose only observed operations are key lookup and single-key
  insertion are modelled as association lists: lookup is `List.lookup`, and
  `d[k] = v` is consing `(k, v)` in front (the most recent binding wins).
* The OpenAI client and the outcome of the one external chat-completion call
  are modelled by `GptEnv`: `openai_client = false` means no working client is
  configured (the mock path), `api_response = some content` means the call
  returns `content`, `api_response = none` means the call raises (the
  `except` path).
* The spec's source tag "model" is the literal string `"gpt"` returned by the
  code; the tags are carried verbatim as strings.
* `dict_invocations` / `gpt_invocations` are ghost instrumentation counting
  how often `translate_text_with_dictionary` / `translate_text_with_gpt` ran
  during one `translate_text` call; they do not influence any result.
-/

namespace TodoApp

/-- ASCII whitespace characters stripped by Python `str.strip()`. -/
def isPySpace (c : Char) : Bool :=
  c = ' ' || c = '\t' || c = '\n' || c = '\x0d' || c = '\x0b' || c = '\x0c'

/-- Python `str.strip()` on a character list: drop whitespace at both ends. -/
def pyStripChars (cs : List Char) : List Char :=
  ((cs.dropWhile isPySpace).reverse.dropWhile isPySpace).reverse

/-- Python `str.strip()`. -/
def pyStrip (s : String) : String := String.mk (pyStripChars s.data)

/-- The normalization performed inline at the top of
`translate_text_with_dictionary`:
`text.lower().strip().replace(' ', '_').replace('.', '').replace(',', '').replace('!', '').replace('?', '')`.
Each single-character `replace` is a characterwise map (for space) or
filter (for the removed punctuation). -/
def normalizeChars (cs : List Char) : List Char :=
  ((pyStripChars (cs.map Char.toLower)).map fun c => if c = ' ' then '_' else c).filter
    fun c => !(c = '.' || c = ',' || c = '!' || c = '?')

/-- String form of the dictionary-lookup normalization. -/
def normalize (text : String) : String := String.mk (normalizeChars text.data)

/-- `charsPrefixOf needle cs`: `needle` occurs at the front of `cs`. -/
def charsPrefixOf : List Char → List Char → Bool
  | [], _ => true
  | _ :: _, [] => false
  | a :: as, b :: bs => a = b && charsPrefixOf as bs

/-- `charsInfixOf needle hay`: `needle` occurs contiguously inside `hay`. -/
def charsInfixOf (needle : List Char) : List Char → Bool
  | [] => charsPrefixOf needle []
  | c :: t => charsPrefixOf needle (c :: t) || charsInfixOf needle t

/-- Python's `needle in hay` substring test on strings. -/
def strContains (hay needle : String) : Bool := charsInfixOf needle.data hay.data

/-- Python truthiness of an optional string: `None` and `""` are falsy. -/
def truthy (o : Option String) : Option String :=
  match o with
  | some v => if v.isEmpty then none else some v
  | none => none

/-- `self.predefined_translations['ui']`: per-language UI label table, in the
source's insertion order; an unknown language gives `[]` (Python `.get(lang, {})`). -/
def ui_table : String → List (String × String)
  | "English" => [
      ("app_title", "AI Todo App"),
      ("app_subtitle", "Intelligent Multilingual Task Management"),
      ("add_task", "Add New Task"),
      ("task_title", "Task Title"),
      ("task_description", "Task Description"),
      ("priority", "Priority"),
      ("status", "Status"),
      ("tags", "Tags (comma-separated)"),
      ("create_task", "Create Task"),
      ("update_task", "Update Task"),
      ("delete_task", "Delete Task"),
      ("translate", "Translate"),
      ("language", "Language"),
      ("filter_by_status", "Filter by Status"),
      ("filter_by_priority", "Filter by Priority"),
      ("search_tasks", "Search Tasks"),
      ("no_tasks_found", "No tasks found. Create your first task!"),
      ("translation_cached", "Translation cached"),
      ("translation_from_gpt", "Translated with AI"),
      ("translation_from_dict", "Quick translation"),
      ("api_error", "Translation service unavailable"),
      ("all", "All")]
  | "Spanish" => [
      ("app_title", "App de Tareas IA"),
      ("app_subtitle", "Gestión Inteligente de Tareas Multiidioma"),
      ("add_task", "Agregar Nueva Tarea"),
      ("task_title", "Título de la Tarea"),
      ("task_description", "Descripción de la Tarea"),
      ("priority", "Prioridad"),
      ("status", "Estado"),
      ("tags", "Etiquetas (separadas por comas)"),
      ("create_task", "Crear Tarea"),
      ("update_task", "Actualizar Tarea"),
      ("delete_task", "Eliminar Tarea"),
      ("translate", "Traducir"),
      ("language", "Idioma"),
      ("filter_by_status", "Filtrar por Estado"),
      ("filter_by_priority", "Filtrar por Prioridad"),
      ("search_tasks", "Buscar Tareas"),
      ("no_tasks_found", "¡No se encontraron tareas. Crea tu primera tarea!"),
      ("translation_cached", "Traducción almacenada"),
      ("translation_from_gpt", "Traducido con IA"),
      ("translation_from_dict", "Traducción rápida"),
      ("api_error", "Servicio de traducción no disponible"),
      ("all", "Todos")]
  | "French" => [
      ("app_title", "App Todo IA"),
      ("app_subtitle", "Gestion Intelligente de Tâches Multilingue"),
      ("add_task", "Ajouter Nouvelle Tâche"),
      ("task_title", "Titre de la Tâche"),
      ("task_description", "Description de la Tâche"),
      ("priority", "Priorité"),
      ("status", "Statut"),
      ("tags", "Étiquettes (séparées par virgules)"),
      ("create_task", "Créer Tâche"),
      ("update_task", "Mettre à Jour Tâche"),
      ("delete_task", "Supprimer Tâche"),
      ("translate", "Traduire"),
      ("language", "Langue"),
      ("filter_by_status", "Filtrer par Statut"),
      ("filter_by_priority", "Filtrer par Priorité"),
      ("search_tasks", "Rechercher Tâches"),
      ("no_tasks_found", "Aucune tâche trouvée. Créez votre première tâche!"),
      ("translation_cached", "Traduction mise en cache"),
      ("translation_from_gpt", "Traduit avec IA"),
      ("translation_from_dict", "Traduction rapide"),
      ("api_error", "Service de traduction indisponible"),
      ("all", "Tous")]
  | "German" => [
      ("app_title", "KI Todo App"),
      ("app_subtitle", "Intelligente Mehrsprachige Aufgabenverwaltung"),
      ("add_task", "Neue Aufgabe Hinzufügen"),
      ("task_title", "Aufgabentitel"),
      ("task_description", "Aufgabenbeschreibung"),
      ("priority", "Priorität"),
      ("status", "Status"),
      ("tags", "Tags (durch Kommas getrennt)"),
      ("create_task", "Aufgabe Erstellen"),
      ("update_task", "Aufgabe Aktualisieren"),
      ("delete_task", "Aufgabe Löschen"),
      ("translate", "Übersetzen"),
      ("language", "Sprache"),
      ("filter_by_status", "Nach Status Filtern"),
      ("filter_by_priority", "Nach Priorität Filtern"),
      ("search_tasks", "Aufgaben Suchen"),
      ("no_tasks_found", "Keine Aufgaben gefunden. Erstellen Sie Ihre erste Aufgabe!"),
      ("translation_cached", "Übersetzung zwischengespeichert"),
      ("translation_from_gpt", "Mit KI übersetzt"),
      ("translation_from_dict", "Schnellübersetzung"),
      ("api_error", "Übersetzungsdienst nicht verfügbar"),
      ("all", "Alle")]
  | "Italian" => [
      ("app_title", "App Todo IA"),
      ("app_subtitle", "Gestione Intelligente Attività Multilingue"),
      ("add_task", "Aggiungi Nuova Attività"),
      ("task_title", "Titolo Attività"),
      ("task_description", "Descrizione Attività"),
      ("priority", "Priorità"),
      ("status", "Stato"),
      ("tags", "Tag (separati da virgole)"),
      ("create_task", "Crea Attività"),
      ("update_task", "Aggiorna Attività"),
      ("delete_task", "Elimina Attività"),
      ("translate", "Traduci"),
      ("language", "Lingua"),
      ("filter_by_status", "Filtra per Stato"),
      ("filter_by_priority", "Filtra per Priorità"),
      ("search_tasks", "Cerca Attività"),
      ("no_tasks_found", "Nessuna attività trovata. Crea la tua prima attività!"),
      ("translation_cached", "Traduzione memorizzata"),
      ("translation_from_gpt", "Tradotto con IA"),
      ("translation_from_dict", "Traduzione veloce"),
      ("api_error", "Servizio di traduzione non disponibile"),
      ("all", "Tutti")]
  | "Hindi" => [
      ("app_title", "एआई टूडू ऐप"),
      ("app_subtitle", "बुद्धिमान बहुभाषी कार्य प्रबंधन"),
      ("add_task", "नया कार्य जोड़ें"),
      ("task_title", "कार्य शीर्षक"),
      ("task_description", "कार्य विवरण"),
      ("priority", "प्राथमिकता"),
      ("status", "स्थिति"),
      ("tags", "टैग (कॉमा से अलग करें)"),
      ("create_task", "कार्य बनाएं"),
      ("update_task", "कार्य अपडेट करें"),
      ("delete_task", "कार्य हटाएं"),
      ("translate", "अनुवाद करें"),
      ("language", "भाषा"),
      ("filter_by_status", "स्थिति के अनुसार फ़िल्टर करें"),
      ("filter_by_priority", "प्राथमिकता के अनुसार फ़िल्टर करें"),
      ("search_tasks", "कार्य खोजें"),
      ("no_tasks_found", "कोई कार्य नहीं मिला। अपना पहला कार्य बनाएं!"),
      ("translation_cached", "अनुवाद संग्रहीत"),
      ("translation_from_gpt", "एआई से अनुवादित"),
      ("translation_from_dict", "त्वरित अनुवाद"),
      ("api_error", "अनुवाद सेवा उपलब्ध नहीं"),
      ("all", "सभी")]
  | _ => []

/-- `self.predefined_translations['tasks']`: per-language common task-phrase
table, in the source's insertion order; unknown language gives `[]`. -/
def tasks_table : String → List (String × String)
  | "English" => [
      ("buy_groceries", "Buy groceries"),
      ("call_doctor", "Call doctor"),
      ("finish_project", "Finish project"),
      ("pay_bills", "Pay bills"),
      ("clean_house", "Clean house"),
      ("exercise", "Exercise"),
      ("study", "Study"),
      ("meeting", "Meeting"),
      ("deadline", "Deadline"),
      ("urgent", "Urgent"),
      ("important", "Important"),
      ("work", "Work"),
      ("personal", "Personal"),
      ("health", "Health"),
      ("finance", "Finance"),
      ("shopping", "Shopping"),
      ("appointment", "Appointment")]
  | "Spanish" => [
      ("buy_groceries", "Comprar comestibles"),
      ("call_doctor", "Llamar al doctor"),
      ("finish_project", "Terminar proyecto"),
      ("pay_bills", "Pagar facturas"),
      ("clean_house", "Limpiar casa"),
      ("exercise", "Hacer ejercicio"),
      ("study", "Estudiar"),
      ("meeting", "Reunión"),
      ("deadline", "Fecha límite"),
      ("urgent", "Urgente"),
      ("important", "Importante"),
      ("work", "Trabajo"),
      ("personal", "Personal"),
      ("health", "Salud"),
      ("finance", "Finanzas"),
      ("shopping", "Compras"),
      ("appointment", "Cita")]
  | "French" => [
      ("buy_groceries", "Acheter des courses"),
      ("call_doctor", "Appeler le docteur"),
      ("finish_project", "Terminer le projet"),
      ("pay_bills", "Payer les factures"),
      ("clean_house", "Nettoyer la maison"),
      ("exercise", "Faire de l\x27exercice"),
      ("study", "Étudier"),
      ("meeting", "Réunion"),
      ("deadline", "Date limite"),
      ("urgent", "Urgent"),
      ("important", "Important"),
      ("work", "Travail"),
      ("personal", "Personnel"),
      ("health", "Santé"),
      ("finance", "Finance"),
      ("shopping", "Achats"),
      ("appointment", "Rendez-vous")]
  | "German" => [
      ("buy_groceries", "Lebensmittel kaufen"),
      ("call_doctor", "Arzt anrufen"),
      ("finish_project", "Projekt beenden"),
      ("pay_bills", "Rechnungen bezahlen"),
      ("clean_house", "Haus putzen"),
      ("exercise", "Sport treiben"),
      ("study", "Lernen"),
      ("meeting", "Besprechung"),
      ("deadline", "Frist"),
      ("urgent", "Dringend"),
      ("important", "Wichtig"),
      ("work", "Arbeit"),
      ("personal", "Persönlich"),
      ("health", "Gesundheit"),
      ("finance", "Finanzen"),
      ("shopping", "Einkaufen"),
      ("appointment", "Termin")]
  | "Italian" => [
      ("buy_groceries", "Comprare generi alimentari"),
      ("call_doctor", "Chiamare il dottore"),
      ("finish_project", "Finire il progetto"),
      ("pay_bills", "Pagare le bollette"),
      ("clean_house", "Pulire casa"),
      ("exercise", "Fare esercizio"),
      ("study", "Studiare"),
      ("meeting", "Riunione"),
      ("deadline", "Scadenza"),
      ("urgent", "Urgente"),
      ("important", "Importante"),
      ("work", "Lavoro"),
      ("personal", "Personale"),
      ("health", "Salute"),
      ("finance", "Finanza"),
      ("shopping", "Shopping"),
      ("appointment", "Appuntamento")]
  | "Hindi" => [
      ("buy_groceries", "किराना खरीदना"),
      ("call_doctor", "डॉक्टर को कॉल करना"),
      ("finish_project", "प्रोजेक्ट पूरा करना"),
      ("pay_bills", "बिल भुगतान"),
      ("clean_house", "घर साफ करना"),
      ("exercise", "व्यायाम"),
      ("study", "अध्ययन"),
      ("meeting", "बैठक"),
      ("deadline", "समय सीमा"),
      ("urgent", "तत्काल"),
      ("important", "महत्वपूर्ण"),
      ("work", "काम"),
      ("personal", "व्यक्तिगत"),
      ("health", "स्वास्थ्य"),
      ("finance", "वित्त"),
      ("shopping", "खरीदारी"),
      ("appointment", "अपॉइंटमेंट")]
  | _ => []

/-- The partial-match scan in `translate_text_with_dictionary`:
`for key, value in tasks[lang].items(): if normalized_text in key or key in normalized_text: return value`. -/
def substringScan (normalized_text : String) : List (String × String) → Option String
  | [] => none
  | (key, value) :: rest =>
    if strContains key normalized_text || strContains normalized_text key then some value
    else substringScan normalized_text rest

/-- `AITodoApp.translate_text_with_dictionary`: exact lookup of the normalized
key in the UI table, then the task table (a present-but-falsy value falls
through, matching Python's `if ui_translation:`), then the partial-match scan
over the task table. -/
def translate_text_with_dictionary (text target_language : String) : Option String :=
  let normalized_text := normalize text
  match truthy ((ui_table target_language).lookup normalized_text) with
  | some v => some v
  | none =>
    match truthy ((tasks_table target_language).lookup normalized_text) with
    | some v => some v
    | none => substringScan normalized_text (tasks_table target_language)

/-- The mutable session state read and written by the translation core:
`st.session_state.translation_cache` and `st.session_state.api_usage_count`. -/
structure TransState where
  translation_cache : List (String × String)
  api_usage_count : Nat
deriving DecidableEq

/-- Configuration and outcome of the external model call:
`openai_client = false` is the unconfigured/mock path; `api_response = some c`
is a successful call returning message content `c`; `none` is a raised
exception inside the `try`. -/
structure GptEnv where
  openai_client : Bool
  api_response : Option String
deriving DecidableEq

/-- `AITodoApp.translate_text_with_gpt`: mock string when no client; on a
successful call, the stripped content with the usage counter incremented; on
an exception, the original text with the state untouched. -/
def translate_text_with_gpt (env : GptEnv) (st : TransState)
    (text target_language : String) : String × TransState :=
  if !env.openai_client then
    ("[Mock AI Translation to " ++ target_language ++ "] " ++ text, st)
  else
    match env.api_response with
    | some content =>
        (pyStrip content, { st with api_usage_count := st.api_usage_count + 1 })
    | none => (text, st)

/-- Observable outcome of one `translate_text` call: the returned pair
`(result, source)`, the session state afterwards, and ghost counters for how
many times the dictionary resolver and the gpt translator ran. -/
structure TransCall where
  result : String
  source : String
  state : TransState
  dict_invocations : Nat
  gpt_invocations : Nat
deriving DecidableEq

/-- The verbatim cache key `f"{text}_{target_language}_{context}"`. -/
def cacheKey (text target_language context : String) : String :=
  text ++ "_" ++ target_language ++ "_" ++ context

/-- `AITodoApp.translate_text`: empty-input short-circuit, verbatim-key cache
lookup, dictionary step (kept only if truthy and different from the input),
gpt fallback; dictionary and gpt results are written to the cache. -/
def translate_text (env : GptEnv) (st : TransState)
    (text target_language context : String) : TransCall :=
  if (pyStrip text).isEmpty then
    ⟨text, "original", st, 0, 0⟩
  else
    let cache_key := cacheKey text target_language context
    match st.translation_cache.lookup cache_key with
    | some v => ⟨v, "cached", st, 0, 0⟩
    | none =>
      let dict_translation := translate_text_with_dictionary text target_language
      match truthy dict_translation with
      | some d =>
        if d ≠ text then
          ⟨d, "dictionary",
            { st with translation_cache := (cache_key, d) :: st.translation_cache }, 1, 0⟩
        else
          let p := translate_text_with_gpt env st text target_language
          ⟨p.1, "gpt",
            { p.2 with translation_cache := (cache_key, p.1) :: p.2.translation_cache }, 1, 1⟩
      | none =>
        let p := translate_text_with_gpt env st text target_language
        ⟨p.1, "gpt",
          { p.2 with translation_cache := (cache_key, p.1) :: p.2.translation_cache }, 1, 1⟩

/-- The `Task` dataclass (all fields are strings except tags/translations). -/
structure Task where
  id : String
  title : String
  description : String
  priority : String
  status : String
  created_at : String
  tags : List String
  translations : List (String × List (String × String))
deriving DecidableEq

/-- One parsed JSON object of an import batch: each field may be absent. -/
structure TaskRecord where
  id : Option String
  title : Option String
  description : Option String
  priority : Option String
  status : Option String
  created_at : Option String
  tags : Option (List String)
  translations : Option (List (String × List (String × String)))
deriving DecidableEq

/-- Building one `Task` from a record inside `import_tasks_json`'s loop:
`task_data['title']` etc. raise `KeyError` when absent (modelled by `none`);
`id`, `tags`, `translations` use `.get` with defaults. -/
def buildTask (fresh_id : String) (r : TaskRecord) : Option Task :=
  match r.title, r.description, r.priority, r.status, r.created_at with
  | some title, some description, some priority, some status, some created_at =>
      some { id := r.id.getD fresh_id, title := title, description := description,
             priority := priority, status := status, created_at := created_at,
             tags := r.tags.getD [], translations := r.translations.getD [] }
  | _, _, _, _, _ => none

/-- The `for task_data in tasks_data` loop of `import_tasks_json`: each built
task is appended to the session task list immediately; the first failing
record aborts the loop via the `except` handler, which returns `False`
leaving the already-appended tasks in place. `gen i` stands for the
`str(uuid.uuid4())` generated for the `i`-th record. -/
def importGo (gen : Nat → String) : Nat → List Task → List TaskRecord → List Task × Bool
  | _, acc, [] => (acc, true)
  | i, acc, r :: rs =>
    match buildTask (gen i) r with
    | some task => importGo gen (i + 1) (acc ++ [task]) rs
    | none => (acc, false)

/-- `AITodoApp.import_tasks_json`: `parsed = none` models `json.loads`
raising on malformed input (caught, returns `False`, no task appended);
otherwise the loop runs over the parsed records starting from the current
session task list. Returns the task list afterwards and the boolean result. -/
def import_tasks_json (gen : Nat → String) (tasks : List Task)
    (parsed : Option (List TaskRecord)) : List Task × Bool :=
  match parsed with
  | none => (tasks, false)
  | some records => importGo gen 0 tasks records

/-- All records of a batch built successfully, with the id generator applied
at the record's position (used to describe the successful prefix of an
import). -/
def buildAll (gen : Nat → String) : Nat → List TaskRecord → Option (List Task)
  | _, [] => some []
  | i, r :: rs =>
    match buildTask (gen i) r, buildAll gen (i + 1) rs with
    | some t, some ts => some (t :: ts)
    | _, _ => none

/-! ### Helper lemmas about the translation pipeline -/

theorem truthy_eq_some {o : Option String} {v : String} (h : truthy o = some v) :
    o = some v ∧ v.isEmpty = false := by
  cases o with
  | none => simp [truthy] at h
  | some w =>
    by_cases hw : w.isEmpty
    · simp [truthy, hw] at h
    · simp [truthy, hw] at h
      subst h
      exact ⟨rfl, by simpa using hw⟩

theorem translate_text_of_empty (env : GptEnv) (st : TransState) (t L c : String)
    (h : (pyStrip t).isEmpty = true) :
    translate_text env st t L c = ⟨t, "original", st, 0, 0⟩ := by
  simp [translate_text, h]

theorem translate_text_cache_hit (env : GptEnv) (st : TransState) (t L c v : String)
    (h : (pyStrip t).isEmpty = false)
    (hv : st.translation_cache.lookup (cacheKey t L c) = some v) :
    translate_text env st t L c = ⟨v, "cached", st, 0, 0⟩ := by
  simp [translate_text, h, hv]

theorem translate_text_dict_path (env : GptEnv) (st : TransState) (t L c v : String)
    (h : (pyStrip t).isEmpty = false)
    (hmiss : st.translation_cache.lookup (cacheKey t L c) = none)
    (hd : translate_text_with_dictionary t L = some v)
    (hv : v.isEmpty = false) (hne : v ≠ t) :
    translate_text env st t L c =
      ⟨v, "dictionary",
        { st with translation_cache := (cacheKey t L c, v) :: st.translation_cache }, 1, 0⟩ := by
  simp [translate_text, h, hmiss, hd, truthy, hv, hne]

theorem translate_text_gpt_path (env : GptEnv) (st : TransState) (t L c : String)
    (h : (pyStrip t).isEmpty = false)
    (hmiss : st.translation_cache.lookup (cacheKey t L c) = none)
    (hdict : ∀ d, translate_text_with_dictionary t L = some d → d.isEmpty = true ∨ d = t) :
    translate_text env st t L c =
      ⟨(translate_text_with_gpt env st t L).1, "gpt",
        { (translate_text_with_gpt env st t L).2 with
            translation_cache :=
              (cacheKey t L c, (translate_text_with_gpt env st t L).1)
                :: (translate_text_with_gpt env st t L).2.translation_cache }, 1, 1⟩ := by
  cases hdd : translate_text_with_dictionary t L with
  | none => simp [translate_text, h, hmiss, hdd, truthy]
  | some d =>
    rcases hdict d hdd with he | rfl
    · simp [translate_text, h, hmiss, hdd, truthy, he]
    · by_cases he : d.isEmpty
      · simp [translate_text, h, hmiss, hdd, truthy, he]
      · simp [translate_text, h, hmiss, hdd, truthy, he]

theorem lookup_after_translate (env : GptEnv) (st : TransState) (t L c : String)
    (h : (pyStrip t).isEmpty = false) :
    ((translate_text env st t L c).state.translation_cache).lookup (cacheKey t L c)
      = some (translate_text env st t L c).result := by
  cases hl : st.translation_cache.lookup (cacheKey t L c) with
  | some v =>
    rw [translate_text_cache_hit env st t L c v h hl]
    exact hl
  | none =>
    cases hdd : translate_text_with_dictionary t L with
    | none =>
      rw [translate_text_gpt_path env st t L c h hl (by intro d hd; rw [hdd] at hd; cases hd)]
      simp [List.lookup_cons, beq_self_eq_true]
    | some d =>
      by_cases he : d.isEmpty
      · rw [translate_text_gpt_path env st t L c h hl
          (by intro e hexact; rw [hdd] at hexact; cases hexact; exact Or.inl he)]
        simp [List.lookup_cons, beq_self_eq_true]
      · by_cases hdt : d = t
        · rw [translate_text_gpt_path env st t L c h hl
            (by intro e hexact; rw [hdd] at hexact; cases hexact; exact Or.inr hdt)]
          simp [List.lookup_cons, beq_self_eq_true]
        · rw [translate_text_dict_path env st t L c d h hl hdd (by simpa using he) hdt]
          simp [List.lookup_cons, beq_self_eq_true]

/-- Every `translate_text` call takes exactly one of the four resolution
paths, with the session state evolving accordingly. -/
theorem translate_text_cases (env : GptEnv) (st : TransState) (t L c : String) :
    translate_text env st t L c = ⟨t, "original", st, 0, 0⟩ ∨
    (∃ v, translate_text env st t L c = ⟨v, "cached", st, 0, 0⟩) ∨
    (∃ v, translate_text env st t L c =
      ⟨v, "dictionary",
        { st with translation_cache := (cacheKey t L c, v) :: st.translation_cache }, 1, 0⟩) ∨
    translate_text env st t L c =
      ⟨(translate_text_with_gpt env st t L).1, "gpt",
        { (translate_text_with_gpt env st t L).2 with
            translation_cache :=
              (cacheKey t L c, (translate_text_with_gpt env st t L).1)
                :: (translate_text_with_gpt env st t L).2.translation_cache }, 1, 1⟩ := by
  by_cases hs : (pyStrip t).isEmpty
  · exact Or.inl (translate_text_of_empty env st t L c hs)
  · have h : (pyStrip t).isEmpty = false := by simpa using hs
    cases hl : st.translation_cache.lookup (cacheKey t L c) with
    | some v => exact Or.inr (Or.inl ⟨v, translate_text_cache_hit env st t L c v h hl⟩)
    | none =>
      cases hdd : translate_text_with_dictionary t L with
      | none =>
        exact Or.inr (Or.inr (Or.inr
          (translate_text_gpt_path env st t L c h hl
            (by intro d hd; rw [hdd] at hd; cases hd))))
      | some d =>
        by_cases he : d.isEmpty
        · exact Or.inr (Or.inr (Or.inr
            (translate_text_gpt_path env st t L c h hl
              (by intro e hexact; rw [hdd] at hexact; cases hexact; exact Or.inl he))))
        · by_cases hdt : d = t
          · exact Or.inr (Or.inr (Or.inr
              (translate_text_gpt_path env st t L c h hl
                (by intro e hexact; rw [hdd] at hexact; cases hexact; exact Or.inr hdt))))
          · exact Or.inr (Or.inr (Or.inl
              ⟨d, translate_text_dict_path env st t L c d h hl hdd (by simpa using he) hdt⟩))

theorem invocations_le_one (env : GptEnv) (st : TransState) (t L c : String) :
    (translate_text env st t L c).dict_invocations ≤ 1 ∧
    (translate_text env st t L c).gpt_invocations ≤ 1 := by
  rcases translate_text_cases env st t L c with hc | ⟨v, hc⟩ | ⟨v, hc⟩ | hc <;>
    rw [hc] <;> refine ⟨?_, ?_⟩ <;> simp

/-! ### Claims -/

/-- C8: for every empty or whitespace-only text (Python's `not text.strip()`),
`translate_text` returns `(text, "original")` immediately and the translation
cache, the API-usage counter, and the whole session state are unchanged; the
dictionary resolver and the model translator do not run. -/
theorem claim_C8_empty_short_circuit (env : GptEnv) (st : TransState) (t L c : String)
    (h : (pyStrip t).isEmpty = true) :
    translate_text env st t L c = ⟨t, "original", st, 0, 0⟩ :=
  translate_text_of_empty env st t L c h

/-- Witness for C8 at the whitespace-only input `"   "`. -/
theorem claim_C8_witness :
    translate_text ⟨false, none⟩ ⟨[], 0⟩ "   " "Spanish" "title"
      = ⟨"   ", "original", ⟨[], 0⟩, 0, 0⟩ :=
  claim_C8_empty_short_circuit ⟨false, none⟩ ⟨[], 0⟩ "   " "Spanish" "title" (by decide)

/-- C2: for non-empty, non-whitespace text, a present verbatim cache key makes
`translate_text` return the cached text with source `"cached"` (first
conjunct); consequently two calls with identical arguments return the
identical text, the second call is a cache hit with the state unchanged, and
the dictionary resolver and the model translator each run at most once across
both calls (ghost invocation counters). -/
theorem claim_C2_idempotence (env : GptEnv) (st : TransState) (t L c : String)
    (h : (pyStrip t).isEmpty = false) :
    (∀ v, st.translation_cache.lookup (cacheKey t L c) = some v →
        translate_text env st t L c = ⟨v, "cached", st, 0, 0⟩) ∧
    (translate_text env (translate_text env st t L c).state t L c).result
        = (translate_text env st t L c).result ∧
    (translate_text env (translate_text env st t L c).state t L c).source = "cached" ∧
    (translate_text env (translate_text env st t L c).state t L c).state
        = (translate_text env st t L c).state ∧
    (translate_text env st t L c).dict_invocations
        + (translate_text env (translate_text env st t L c).state t L c).dict_invocations ≤ 1 ∧
    (translate_text env st t L c).gpt_invocations
        + (translate_text env (translate_text env st t L c).state t L c).gpt_invocations ≤ 1 := by
  have hsecond := translate_text_cache_hit env (translate_text env st t L c).state t L c
    (translate_text env st t L c).result h (lookup_after_translate env st t L c h)
  have hinv := invocations_le_one env st t L c
  refine ⟨fun v hv => translate_text_cache_hit env st t L c v h hv, ?_, ?_, ?_, ?_, ?_⟩
  · rw [hsecond]
  · rw [hsecond]
  · rw [hsecond]
  · rw [hsecond]; simpa using hinv.1
  · rw [hsecond]; simpa using hinv.2

/-- Witness for C2 at `("hello", "Spanish", "title")` from the empty session
state with the unconfigured mock environment. -/
theorem claim_C2_witness :
    (∀ v, (⟨[], 0⟩ : TransState).translation_cache.lookup (cacheKey "hello" "Spanish" "title")
          = some v →
        translate_text ⟨false, none⟩ ⟨[], 0⟩ "hello" "Spanish" "title" = ⟨v, "cached", ⟨[], 0⟩, 0, 0⟩) ∧
    (translate_text ⟨false, none⟩
        (translate_text ⟨false, none⟩ ⟨[], 0⟩ "hello" "Spanish" "title").state
        "hello" "Spanish" "title").result
      = (translate_text ⟨false, none⟩ ⟨[], 0⟩ "hello" "Spanish" "title").result ∧
    (translate_text ⟨false, none⟩
        (translate_text ⟨false, none⟩ ⟨[], 0⟩ "hello" "Spanish" "title").state
        "hello" "Spanish" "title").source = "cached" ∧
    (translate_text ⟨false, none⟩
        (translate_text ⟨false, none⟩ ⟨[], 0⟩ "hello" "Spanish" "title").state
        "hello" "Spanish" "title").state
      = (translate_text ⟨false, none⟩ ⟨[], 0⟩ "hello" "Spanish" "title").state ∧
    (translate_text ⟨false, none⟩ ⟨[], 0⟩ "hello" "Spanish" "title").dict_invocations
      + (translate_text ⟨false, none⟩
          (translate_text ⟨false, none⟩ ⟨[], 0⟩ "hello" "Spanish" "title").state
          "hello" "Spanish" "title").dict_invocations ≤ 1 ∧
    (translate_text ⟨false, none⟩ ⟨[], 0⟩ "hello" "Spanish" "title").gpt_invocations
      + (translate_text ⟨false, none⟩
          (translate_text ⟨false, none⟩ ⟨[], 0⟩ "hello" "Spanish" "title").state
          "hello" "Spanish" "title").gpt_invocations ≤ 1 :=
  claim_C2_idempotence ⟨false, none⟩ ⟨[], 0⟩ "hello" "Spanish" "title" (by decide)

/-- C5: when the model capability is configured but the external call errors,
`translate_text_with_gpt` returns the original untranslated text with the
session state (hence the API-usage counter) unchanged, and under such an
environment no `translate_text` path changes the usage counter; the embedded
orchestrator is a total function, reflecting that the caught exception does
not propagate past it. -/
theorem claim_C5_error_fail_soft (env : GptEnv) (st : TransState) (t L c : String)
    (hcfg : env.openai_client = true) (herr : env.api_response = none) :
    translate_text_with_gpt env st t L = (t, st) ∧
    (translate_text env st t L c).state.api_usage_count = st.api_usage_count := by
  have hg : translate_text_with_gpt env st t L = (t, st) := by
    simp [translate_text_with_gpt, hcfg, herr]
  refine ⟨hg, ?_⟩
  rcases translate_text_cases env st t L c with hc | ⟨v, hc⟩ | ⟨v, hc⟩ | hc <;>
    (rw [hc]; all_goals simp [hg])

/-- Witness for C5: configured client, failing call, on `"hello"`. -/
theorem claim_C5_witness :
    translate_text_with_gpt ⟨true, none⟩ ⟨[], 0⟩ "hello" "Spanish" = ("hello", ⟨[], 0⟩) ∧
    (translate_text ⟨true, none⟩ ⟨[], 0⟩ "hello" "Spanish" "title").state.api_usage_count = 0 :=
  claim_C5_error_fail_soft ⟨true, none⟩ ⟨[], 0⟩ "hello" "Spanish" "title" rfl rfl

/-- C4 counterexample: with the model capability unconfigured, the uncached
call on `"hello world"` (which has no dictionary match) returns source
`"gpt"` but leaves the API-usage counter at `0`: it does not increment by
one, contradicting the claim's "including when the model capability is
unconfigured". -/
theorem claim_C4_counterexample :
    translate_text_with_dictionary "hello world" "Spanish" = none ∧
    (translate_text ⟨false, none⟩ ⟨[], 0⟩ "hello world" "Spanish" "title").source = "gpt" ∧
    (translate_text ⟨false, none⟩ ⟨[], 0⟩
        "hello world" "Spanish" "title").state.api_usage_count = 0 ∧
    (0 : Nat) ≠ 0 + 1 :=
  ⟨rfl, rfl, rfl, by decide⟩

/-- C4 (amended): for non-empty uncached text whose dictionary step yields no
usable match (no match, a falsy match, or a match equal to the input),
`translate_text` returns a result with source `"gpt"` (the spec's "model"),
and the API-usage counter increments by exactly one precisely when the model
capability is configured and the call succeeds; it is unchanged on the
unconfigured mock path and on call error. -/
theorem claim_C4_model_fallback (env : GptEnv) (st : TransState) (t L c : String)
    (h : (pyStrip t).isEmpty = false)
    (hmiss : st.translation_cache.lookup (cacheKey t L c) = none)
    (hdict : ∀ d, translate_text_with_dictionary t L = some d → d.isEmpty = true ∨ d = t) :
    (translate_text env st t L c).source = "gpt" ∧
    (translate_text env st t L c).state.api_usage_count
      = st.api_usage_count
        + (if env.openai_client && env.api_response.isSome then 1 else 0) := by
  rw [translate_text_gpt_path env st t L c h hmiss hdict]
  refine ⟨rfl, ?_⟩
  cases hcl : env.openai_client <;> cases hr : env.api_response <;>
    simp [translate_text_with_gpt, hcl, hr]

/-- Witness for C4: a configured, successful call on `"hello world"` lands on
the model path and increments the counter from 0 to 1. -/
theorem claim_C4_witness :
    (translate_text ⟨true, some "Hola"⟩ ⟨[], 0⟩ "hello world" "Spanish" "title").source = "gpt" ∧
    (translate_text ⟨true, some "Hola"⟩ ⟨[], 0⟩
        "hello world" "Spanish" "title").state.api_usage_count = 0 + 1 :=
  claim_C4_model_fallback ⟨true, some "Hola"⟩ ⟨[], 0⟩ "hello world" "Spanish" "title"
    (by decide) rfl
    (by intro d hd
        rw [show translate_text_with_dictionary "hello world" "Spanish" = none from rfl] at hd
        cases hd)

/-- C6 counterexample: with no configured credential the placeholder actually
returned for `"Quantum flux capacitor repair"` is
`"[Mock AI Translation to Spanish] ..."`, not the claimed
`"[Mock translation to Spanish] ..."`. -/
theorem claim_C6_counterexample :
    (translate_text ⟨false, none⟩ ⟨[], 0⟩
        "Quantum flux capacitor repair" "Spanish" "title").result
      = "[Mock AI Translation to Spanish] Quantum flux capacitor repair" ∧
    (translate_text ⟨false, none⟩ ⟨[], 0⟩
        "Quantum flux capacitor repair" "Spanish" "title").result
      ≠ "[Mock translation to Spanish] Quantum flux capacitor repair" :=
  ⟨rfl, by decide⟩

/-- C6 (amended): with the model capability unconfigured, any non-empty
uncached text without a usable dictionary match yields the placeholder
`"[Mock AI Translation to <language>] <text>"` with source `"gpt"` (the
spec's "model") instead of failing. -/
theorem claim_C6_mock_placeholder (env : GptEnv) (st : TransState) (t L c : String)
    (hcl : env.openai_client = false)
    (h : (pyStrip t).isEmpty = false)
    (hmiss : st.translation_cache.lookup (cacheKey t L c) = none)
    (hdict : ∀ d, translate_text_with_dictionary t L = some d → d.isEmpty = true ∨ d = t) :
    (translate_text env st t L c).result = "[Mock AI Translation to " ++ L ++ "] " ++ t ∧
    (translate_text env st t L c).source = "gpt" := by
  rw [translate_text_gpt_path env st t L c h hmiss hdict]
  refine ⟨?_, rfl⟩
  simp [translate_text_with_gpt, hcl]

/-- Witness for C6 at the spec's own scenario input. -/
theorem claim_C6_witness :
    (translate_text ⟨false, none⟩ ⟨[], 0⟩
        "Quantum flux capacitor repair" "Spanish" "title").result
      = "[Mock AI Translation to Spanish] Quantum flux capacitor repair" ∧
    (translate_text ⟨false, none⟩ ⟨[], 0⟩
        "Quantum flux capacitor repair" "Spanish" "title").source = "gpt" :=
  claim_C6_mock_placeholder ⟨false, none⟩ ⟨[], 0⟩
    "Quantum flux capacitor repair" "Spanish" "title" rfl (by decide) rfl
    (by intro d hd
        rw [show translate_text_with_dictionary "Quantum flux capacitor repair" "Spanish"
              = none from rfl] at hd
        cases hd)

/-- C1 counterexample: the normalized key of `"Urgent"` exactly matches the
English task-phrase entry `urgent ↦ "Urgent"`, yet the uncached call returns
source `"gpt"` and the model translator runs once, because the matched value
equals the input text and the code falls through to the model. -/
theorem claim_C1_counterexample :
    (tasks_table "English").lookup (normalize "Urgent") = some "Urgent" ∧
    (translate_text ⟨false, none⟩ ⟨[], 0⟩ "Urgent" "English" "title").source = "gpt" ∧
    (translate_text ⟨false, none⟩ ⟨[], 0⟩ "Urgent" "English" "title").gpt_invocations = 1 ∧
    "gpt" ≠ "dictionary" :=
  ⟨rfl, rfl, rfl, by decide⟩

/-- C1 (amended): for non-empty uncached text whose normalized key exactly
matches a phrase-table entry of the target language (UI table first, then the
task table), provided the matched value differs from the input text,
`translate_text` returns that dictionary value with source `"dictionary"`,
writes it to the cache, and never invokes the model translator. -/
theorem claim_C1_dictionary_precedence (env : GptEnv) (st : TransState) (t L c v : String)
    (h : (pyStrip t).isEmpty = false)
    (hmiss : st.translation_cache.lookup (cacheKey t L c) = none)
    (hexact : truthy ((ui_table L).lookup (normalize t)) = some v ∨
      (truthy ((ui_table L).lookup (normalize t)) = none ∧
       truthy ((tasks_table L).lookup (normalize t)) = some v))
    (hne : v ≠ t) :
    translate_text env st t L c =
      ⟨v, "dictionary",
        { st with translation_cache := (cacheKey t L c, v) :: st.translation_cache }, 1, 0⟩ := by
  have hv : v.isEmpty = false := by
    rcases hexact with hu | ⟨_, ht⟩
    · exact (truthy_eq_some hu).2
    · exact (truthy_eq_some ht).2
  have hd : translate_text_with_dictionary t L = some v := by
    rcases hexact with hu | ⟨hu, ht⟩
    · simp only [translate_text_with_dictionary, hu]
    · simp only [translate_text_with_dictionary, hu, ht]
  exact translate_text_dict_path env st t L c v h hmiss hd hv hne

/-- Witness for C1 at the spec's own scenario `("buy groceries", "Spanish")`. -/
theorem claim_C1_witness :
    translate_text ⟨false, none⟩ ⟨[], 0⟩ "buy groceries" "Spanish" "title"
      = ⟨"Comprar comestibles", "dictionary",
          ⟨[(cacheKey "buy groceries" "Spanish" "title", "Comprar comestibles")], 0⟩, 1, 0⟩ :=
  claim_C1_dictionary_precedence ⟨false, none⟩ ⟨[], 0⟩ "buy groceries" "Spanish" "title"
    "Comprar comestibles" (by decide) rfl (Or.inr ⟨rfl, rfl⟩) (by decide)

/-- C9: if the configured model call errors on a non-empty uncached text
without a usable dictionary match, `translate_text` still writes the returned
original text into the cache under the verbatim key, so any subsequent call
with the same arguments (under any environment) returns that original text
with source `"cached"` and never retries the model. -/
theorem claim_C9_error_then_cached (env env2 : GptEnv) (st : TransState) (t L c : String)
    (hcfg : env.openai_client = true) (herr : env.api_response = none)
    (h : (pyStrip t).isEmpty = false)
    (hmiss : st.translation_cache.lookup (cacheKey t L c) = none)
    (hdict : ∀ d, translate_text_with_dictionary t L = some d → d.isEmpty = true ∨ d = t) :
    translate_text env st t L c =
      ⟨t, "gpt",
        { st with translation_cache := (cacheKey t L c, t) :: st.translation_cache }, 1, 1⟩ ∧
    translate_text env2
        { st with translation_cache := (cacheKey t L c, t) :: st.translation_cache } t L c
      = ⟨t, "cached",
          { st with translation_cache := (cacheKey t L c, t) :: st.translation_cache }, 0, 0⟩ := by
  have hg : translate_text_with_gpt env st t L = (t, st) := by
    simp [translate_text_with_gpt, hcfg, herr]
  constructor
  · rw [translate_text_gpt_path env st t L c h hmiss hdict, hg]
  · exact translate_text_cache_hit env2 _ t L c t h
      (by simp [List.lookup_cons, beq_self_eq_true])

/-- Witness for C9 on `"hello"` with a configured but failing call. -/
theorem claim_C9_witness :
    translate_text ⟨true, none⟩ ⟨[], 0⟩ "hello" "Spanish" "title"
      = ⟨"hello", "gpt", ⟨[(cacheKey "hello" "Spanish" "title", "hello")], 0⟩, 1, 1⟩ ∧
    translate_text ⟨false, none⟩ ⟨[(cacheKey "hello" "Spanish" "title", "hello")], 0⟩
        "hello" "Spanish" "title"
      = ⟨"hello", "cached", ⟨[(cacheKey "hello" "Spanish" "title", "hello")], 0⟩, 0, 0⟩ :=
  claim_C9_error_then_cached ⟨true, none⟩ ⟨false, none⟩ ⟨[], 0⟩ "hello" "Spanish" "title"
    rfl rfl (by decide) rfl
    (by intro d hd
        rw [show translate_text_with_dictionary "hello" "Spanish" = none from rfl] at hd
        cases hd)

theorem charsInfixOf_nil (hay : List Char) : charsInfixOf [] hay = true := by
  cases hay <;> simp [charsInfixOf, charsPrefixOf]

theorem tasks_table_cases (L : String) (hL : tasks_table L ≠ []) :
    L = "English" ∨ L = "Spanish" ∨ L = "French" ∨ L = "German" ∨
      L = "Italian" ∨ L = "Hindi" := by
  by_cases h1 : L = "English"
  · exact Or.inl h1
  by_cases h2 : L = "Spanish"
  · exact Or.inr (Or.inl h2)
  by_cases h3 : L = "French"
  · exact Or.inr (Or.inr (Or.inl h3))
  by_cases h4 : L = "German"
  · exact Or.inr (Or.inr (Or.inr (Or.inl h4)))
  by_cases h5 : L = "Italian"
  · exact Or.inr (Or.inr (Or.inr (Or.inr (Or.inl h5))))
  by_cases h6 : L = "Hindi"
  · exact Or.inr (Or.inr (Or.inr (Or.inr (Or.inr h6))))
  exfalso
  apply hL
  unfold tasks_table
  split
  all_goals first | rfl | (exfalso; simp_all)

/-- When the normalized key is empty and both exact lookups miss, the
partial-match scan accepts the very first entry of the task-phrase table
(the empty string is a substring of every key), so the dictionary resolves to
the head entry's value and `translate_text` takes the dictionary path. -/
theorem translate_text_head_of_normalize_empty (env : GptEnv) (st : TransState)
    (t L c k0 v0 : String) (rest : List (String × String))
    (h : (pyStrip t).isEmpty = false)
    (hn : normalize t = "")
    (hmiss : st.translation_cache.lookup (cacheKey t L c) = none)
    (hui : (ui_table L).lookup "" = none)
    (htask : tasks_table L = (k0, v0) :: rest)
    (htl : (tasks_table L).lookup "" = none)
    (hv : v0.isEmpty = false)
    (hne : v0 ≠ t) :
    translate_text env st t L c =
      ⟨v0, "dictionary",
        { st with translation_cache := (cacheKey t L c, v0) :: st.translation_cache }, 1, 0⟩ := by
  have htl2 : List.lookup "" ((k0, v0) :: rest) = none := by rw [← htask]; exact htl
  have hd : translate_text_with_dictionary t L = some v0 := by
    simp only [translate_text_with_dictionary, hn, hui, truthy, htask, htl2]
    simp [substringScan, strContains, charsInfixOf_nil]
  exact translate_text_dict_path env st t L c v0 h hmiss hd hv hne

/-- C10: for every target language whose task-phrase table is non-empty, any
non-whitespace text whose normalized key is the empty string passes the
partial-match test against every key, so an uncached `translate_text` call
returns the value of the first task-phrase entry in insertion order with
source `"dictionary"` (whenever that value differs from the input text) and
never reaches the model. -/
theorem claim_C10_empty_normalized_key (env : GptEnv) (st : TransState) (t L c : String)
    (hL : tasks_table L ≠ [])
    (h : (pyStrip t).isEmpty = false)
    (hn : normalize t = "")
    (hmiss : st.translation_cache.lookup (cacheKey t L c) = none)
    (hne : ((tasks_table L).headI).2 ≠ t) :
    translate_text env st t L c =
      ⟨((tasks_table L).headI).2, "dictionary",
        { st with translation_cache :=
            (cacheKey t L c, ((tasks_table L).headI).2) :: st.translation_cache }, 1, 0⟩ := by
  rcases tasks_table_cases L hL with rfl | rfl | rfl | rfl | rfl | rfl <;>
    exact translate_text_head_of_normalize_empty env st t _ c _ _ _ h hn hmiss
      (by decide) rfl (by decide) (by decide) hne

/-- Witness for C10 at the punctuation-only input `"!!!"` and Spanish: the
first Spanish task phrase `"Comprar comestibles"` is returned as a
dictionary hit. -/
theorem claim_C10_witness :
    translate_text ⟨false, none⟩ ⟨[], 0⟩ "!!!" "Spanish" "title"
      = ⟨"Comprar comestibles", "dictionary",
          ⟨[(cacheKey "!!!" "Spanish" "title", "Comprar comestibles")], 0⟩, 1, 0⟩ :=
  claim_C10_empty_normalized_key ⟨false, none⟩ ⟨[], 0⟩ "!!!" "Spanish" "title"
    (by decide) (by decide) (by decide) rfl (by decide)

/-! ### Normalization lemmas (claim C7) -/

theorem pyStripChars_cons_space (cs : List Char) :
    pyStripChars (' ' :: cs) = pyStripChars cs := by
  simp [pyStripChars, List.dropWhile_cons, isPySpace]

theorem pyStripChars_concat_space (cs : List Char) :
    pyStripChars (cs ++ [' ']) = pyStripChars cs := by
  unfold pyStripChars
  rw [List.dropWhile_append]
  by_cases hemp : (List.dropWhile isPySpace cs).isEmpty
  · rw [if_pos hemp]
    have hnil : List.dropWhile isPySpace cs = [] := List.isEmpty_iff.1 hemp
    rw [hnil]
    simp [List.dropWhile_cons, isPySpace]
  · rw [if_neg hemp]
    simp [List.reverse_append, List.dropWhile_cons, isPySpace]

theorem normalize_trim (s : String) :
    normalize (" " ++ s) = normalize s ∧ normalize (s ++ " ") = normalize s := by
  constructor
  · unfold normalize normalizeChars
    rw [String.data_append]
    simp [pyStripChars_cons_space, show Char.toLower ' ' = ' ' from rfl]
  · unfold normalize normalizeChars
    rw [String.data_append]
    simp [List.map_append, pyStripChars_concat_space, show Char.toLower ' ' = ' ' from rfl]

theorem normalize_no_banned (s : String) :
    ∀ ch ∈ (normalize s).data,
      ¬(ch = '.' ∨ ch = ',' ∨ ch = '!' ∨ ch = '?' ∨ ch = ' ') := by
  intro ch hch hcontra
  have hch2 : ch ∈ normalizeChars s.data := hch
  unfold normalizeChars at hch2
  obtain ⟨hmem, hpred⟩ := List.mem_filter.1 hch2
  obtain ⟨c0, hc0, hmap⟩ := List.mem_map.1 hmem
  rcases hcontra with h | h | h | h | h
  · rw [h] at hpred; simp at hpred
  · rw [h] at hpred; simp at hpred
  · rw [h] at hpred; simp at hpred
  · rw [h] at hpred; simp at hpred
  · by_cases hc : c0 = ' '
    · rw [hc] at hmap
      simp at hmap
      rw [← hmap] at h
      exact absurd h (by decide)
    · rw [if_neg hc] at hmap
      exact hc (hmap.trans h)

theorem pyStripChars_rep (n : Nat) :
    pyStripChars ('a' :: (List.replicate n ' ' ++ ['b']))
      = 'a' :: (List.replicate n ' ' ++ ['b']) := by
  simp [pyStripChars, List.dropWhile_cons, List.reverse_append, List.reverse_replicate,
        List.dropWhile_append, show isPySpace 'a' = false from rfl,
        show isPySpace 'b' = false from rfl]

theorem filter_map_rep (n : Nat) :
    List.filter (fun c => !(c = '.' || c = ',' || c = '!' || c = '?'))
      (List.map (fun c => if c = ' ' then '_' else c) ('a' :: (List.replicate n ' ' ++ ['b'])))
      = 'a' :: (List.replicate n '_' ++ ['b']) := by
  simp [List.map_append, List.map_replicate, List.filter_append, List.filter_replicate]

theorem normalize_replicate_space (n : Nat) :
    normalize (String.mk ('a' :: (List.replicate n ' ' ++ ['b'])))
      = String.mk ('a' :: (List.replicate n '_' ++ ['b'])) := by
  unfold normalize
  congr 1
  unfold normalizeChars
  have hmap : List.map Char.toLower ('a' :: (List.replicate n ' ' ++ ['b']))
      = 'a' :: (List.replicate n ' ' ++ ['b']) := by
    simp [List.map_append, List.map_replicate, show Char.toLower 'a' = 'a' from rfl,
          show Char.toLower ' ' = ' ' from rfl, show Char.toLower 'b' = 'b' from rfl]
  rw [show (String.mk ('a' :: (List.replicate n ' ' ++ ['b']))).data
        = 'a' :: (List.replicate n ' ' ++ ['b']) from rfl]
  rw [hmap, pyStripChars_rep n]
  exact filter_map_rep n

/-- C7 counterexample: normalization maps EACH space character to an
underscore, so the internal run of two spaces in `"a  b"` yields two
underscores, not the single underscore the claim requires; an internal tab
(also whitespace) is not replaced at all. -/
theorem claim_C7_counterexample :
    normalize "a  b" = "a__b" ∧ "a__b" ≠ "a_b" ∧
    normalize "a\tb" = "a\tb" ∧ "a\tb" ≠ "a_b" :=
  ⟨rfl, by decide, rfl, by decide⟩

/-- C7 (amended): normalization lowercases, trims surrounding whitespace,
replaces each internal space character with one underscore (a run of n
spaces yields n underscores; other whitespace such as tab is untouched), and
strips '.', ',', '!', '?'. It is a total function of the embedding; empty
input normalizes to the empty key; the output never contains the stripped
punctuation or a space; leading and trailing spaces do not affect the key. -/
theorem claim_C7_normalization :
    normalize "" = "" ∧
    normalize "AbC." = "abc" ∧
    (∀ s : String, ∀ ch ∈ (normalize s).data,
        ¬(ch = '.' ∨ ch = ',' ∨ ch = '!' ∨ ch = '?' ∨ ch = ' ')) ∧
    (∀ s : String, normalize (" " ++ s) = normalize s ∧ normalize (s ++ " ") = normalize s) ∧
    (∀ n : Nat, normalize (String.mk ('a' :: (List.replicate n ' ' ++ ['b'])))
        = String.mk ('a' :: (List.replicate n '_' ++ ['b']))) :=
  ⟨rfl, rfl, normalize_no_banned, normalize_trim, normalize_replicate_space⟩

/-- Witness instantiating C7's quantified conjuncts at concrete inputs. -/
theorem claim_C7_witness :
    ¬(('b' : Char) = '.' ∨ ('b' : Char) = ',' ∨ ('b' : Char) = '!' ∨
        ('b' : Char) = '?' ∨ ('b' : Char) = ' ') ∧
    normalize (" " ++ "x") = normalize "x" ∧
    normalize (String.mk ('a' :: (List.replicate 3 ' ' ++ ['b'])))
      = String.mk ('a' :: (List.replicate 3 '_' ++ ['b'])) :=
  ⟨claim_C7_normalization.2.2.1 "b" 'b' (by decide),
   (claim_C7_normalization.2.2.2.1 "x").1,
   claim_C7_normalization.2.2.2.2 3⟩

/-! ### Import lemmas (claim C3) -/

theorem importGo_append (gen : Nat → String) (pre : List TaskRecord) :
    ∀ (i : Nat) (acc : List Task) (built : List Task) (bad : TaskRecord)
      (rest : List TaskRecord),
      buildAll gen i pre = some built →
      buildTask (gen (i + pre.length)) bad = none →
      importGo gen i acc (pre ++ bad :: rest) = (acc ++ built, false) := by
  induction pre with
  | nil =>
    intro i acc built bad rest hpre hbad
    simp only [buildAll] at hpre
    cases hpre
    simp only [List.length_nil, Nat.add_zero] at hbad
    simp [importGo, hbad]
  | cons r pre ih =>
    intro i acc built bad rest hpre hbad
    simp only [buildAll] at hpre
    cases hb : buildTask (gen i) r with
    | none => rw [hb] at hpre; cases hpre
    | some task =>
      cases hall : buildAll gen (i + 1) pre with
      | none => rw [hb, hall] at hpre; cases hpre
      | some ts =>
        rw [hb, hall] at hpre
        cases hpre
        have harith : i + (r :: pre).length = i + 1 + pre.length := by
          simp [List.length_cons]; omega
        rw [harith] at hbad
        have hrec := ih (i + 1) (acc ++ [task]) ts bad rest hall hbad
        rw [List.cons_append]
        simp only [importGo, hb]
        rw [hrec]
        simp

/-- C3 counterexample: a two-record batch whose second record lacks the
required `title` field makes the import report failure, yet the first record
has already been appended: the task list is not exactly as it was before the
call, refuting the zero-partial-application part of the claim. -/
theorem claim_C3_counterexample :
    import_tasks_json (fun _ => "fresh") []
        (some [⟨none, some "A", some "d", some "p", some "s", some "c", none, none⟩,
               ⟨none, none, some "d", some "p", some "s", some "c", none, none⟩])
      = ([⟨"fresh", "A", "d", "p", "s", "c", [], []⟩], false) ∧
    ([⟨"fresh", "A", "d", "p", "s", "c", [], []⟩] : List Task) ≠ [] :=
  ⟨rfl, by decide⟩

/-- C3 (amended): malformed JSON fails the import as a unit with the task
list unchanged; a record missing a required field makes the import report
failure and stop at that record, but the tasks built from the records before
the offending one have already been appended (the import is not atomic); the
pre-existing tasks are preserved in front. -/
theorem claim_C3_import_failure (gen : Nat → String) (ts : List Task)
    (pre : List TaskRecord) (bad : TaskRecord) (rest : List TaskRecord)
    (built : List Task)
    (hpre : buildAll gen 0 pre = some built)
    (hbad : buildTask (gen pre.length) bad = none) :
    import_tasks_json gen ts none = (ts, false) ∧
    import_tasks_json gen ts (some (pre ++ bad :: rest)) = (ts ++ built, false) := by
  refine ⟨rfl, ?_⟩
  have hbad0 : buildTask (gen (0 + pre.length)) bad = none := by
    rw [Nat.zero_add]; exact hbad
  exact importGo_append gen pre 0 ts built bad rest hpre hbad0

/-- Witness for C3 on a batch of one valid record followed by one record
missing `title`. -/
theorem claim_C3_witness :
    import_tasks_json (fun _ => "fresh") ([] : List Task) none = ([], false) ∧
    import_tasks_json (fun _ => "fresh") []
        (some ([⟨none, some "B", some "d", some "p", some "s", some "c", none, none⟩]
          ++ (⟨none, none, some "d", some "p", some "s", some "c", none, none⟩ : TaskRecord)
            :: []))
      = ([] ++ [⟨"fresh", "B", "d", "p", "s", "c", [], []⟩], false) :=
  claim_C3_import_failure (fun _ => "fresh") []
    [⟨none, some "B", some "d", some "p", some "s", some "c", none, none⟩]
    ⟨none, none, some "d", some "p", some "s", some "c", none, none⟩ []
    [⟨"fresh", "B", "d", "p", "s", "c", [], []⟩] rfl rfl

end TodoApp
